import Mathlib

/-!
Verification of the SmartAgriculture normalization engine and its self-check.

This development is a shallow embedding of `scripts/export_spectra.py` and
`scripts/self_check.py`. Spectra are modelled as lists of real numbers
(the claims restrict attention to finite float vectors, so IEEE NaN/Inf
semantics do not arise); per-sample exceptions are modelled with `Option`;
the external ENVI cube loader is an explicit function parameter.

Python source conventions mirrored here:
  * `np.clip(a, lo, hi)` is `min hi (max a lo)` (the upper bound is applied
    last, so it wins when `hi < lo`);
  * `pandas.unique` keeps first occurrences in order;
  * `if ref_hdr:` is Python truthiness on an optional string: `None` and
    the empty string are both falsy.
-/

namespace SmartAg

/-- `eps = 1e-9`, the degeneracy threshold used throughout `export_spectra.py`. -/
noncomputable def eps : ℝ := 1 / 10 ^ 9

/-- One row of `hsi_meta.csv` (produced by `parse_inventory.py`). -/
structure SampleRecord where
  hdrPath : String
  sensor : String
  isRef : Bool
  timepoint : String
deriving DecidableEq, Repr

/-- A hyperspectral cube with the two spatial axes flattened: a list of
pixels, each pixel a list of per-band values. -/
def Cube : Type := List (List ℝ)

/-- Mean of a list (`np.nanmean` on finite data; 0 on empty input). -/
noncomputable def listMean (xs : List ℝ) : ℝ := xs.sum / xs.length

/-- `_mean_spectrum`: band-wise mean over all spatial positions
(`np.nanmean(cube, axis=(0, 1))`). -/
noncomputable def meanSpectrum (cube : Cube) : List ℝ :=
  (List.transpose cube).map listMean

/-- `np.clip(x, lo, hi)` on a scalar: `minimum(hi, maximum(x, lo))`. -/
noncomputable def npClip (x lo hi : ℝ) : ℝ := min hi (max x lo)

/-- `_normalize_cloth`: `np.clip(sample / np.maximum(ref, eps), 0, 2.0)`. -/
noncomputable def normalizeCloth (sample ref : List ℝ) : List ℝ :=
  List.zipWith (fun s r => npClip (s / max r eps) 0 2) sample ref

/-- `_normalize_baseline`: same formula as `_normalize_cloth`, with the
baseline spectrum as the reference. -/
noncomputable def normalizeBaseline (sample baseline : List ℝ) : List ℝ :=
  List.zipWith (fun s r => npClip (s / max r eps) 0 2) sample baseline

/-! ### Claim C3: CLOTH/BASELINE normalizers and their [0, 2] bound -/

/-- Any element produced by the shared clip formula lies in `[0, 2]`. -/
theorem zipWith_clip_mem {y : ℝ} :
    ∀ {s r : List ℝ},
      y ∈ List.zipWith (fun a b => npClip (a / max b eps) 0 2) s r →
      0 ≤ y ∧ y ≤ 2 := by
  intro s
  induction s with
  | nil => intro r h; simp at h
  | cons a t ih =>
    intro r h
    cases r with
    | nil => simp at h
    | cons b tr =>
      simp only [List.zipWith_cons_cons, List.mem_cons] at h
      rcases h with h | h
      · subst h
        unfold npClip
        constructor
        · exact le_min (by norm_num) (le_max_right _ _)
        · exact min_le_left _ _
      · exact ih h

/-! ### Cloth reference selection and mode resolution (`export_spectra.py`) -/

/-- `_pick_ref_cloth`: first same-`(sensor, timepoint)` cloth row, else first
same-sensor cloth row, else `None`. `iloc[0]` is the head of the filtered
table, in table order. -/
def pickRefCloth (df : List SampleRecord) (row : SampleRecord) : Option String :=
  let same_tp := df.filter fun s =>
    s.sensor == row.sensor && s.timepoint == row.timepoint && s.isRef
  match same_tp.head? with
  | some r0 => some r0.hdrPath
  | none =>
    let any_cloth := df.filter fun s => s.sensor == row.sensor && s.isRef
    match any_cloth.head? with
    | some r0 => some r0.hdrPath
    | none => none

/-- Python truthiness of an optional string (`if ref_hdr:`): `None` and the
empty string are falsy. -/
def truthyStr (o : Option String) : Option String :=
  match o with
  | some s => if s = "" then none else some s
  | none => none

/-- The AUTO-mode resolution block of `main` (`export_spectra.py` lines
181-190): `baselines` is the per-sensor dict computed before the sample
loop; `dict.get` returning `None` is `Option.isSome = false`. -/
def resolveMode (cfg : String) (meta : List SampleRecord)
    (baselines : String → Option (List ℝ)) (r : SampleRecord) : String :=
  if cfg = "AUTO" then
    match truthyStr (pickRefCloth meta r) with
    | some _ => "CLOTH"
    | none => if (baselines r.sensor).isSome then "BASELINE" else "ZSCORE"
  else cfg

/-- Is there a cloth reference with the same sensor and timepoint? -/
def hasClothTP (meta : List SampleRecord) (row : SampleRecord) : Bool :=
  meta.any fun s => s.isRef && s.sensor == row.sensor && s.timepoint == row.timepoint

/-- Is there a cloth reference with the same sensor (any timepoint)? -/
def hasClothSensor (meta : List SampleRecord) (row : SampleRecord) : Bool :=
  meta.any fun s => s.isRef && s.sensor == row.sensor

/-- Modelled from the spec's words (§4.3 Mode Resolver), for comparison with
`resolveMode`: explicit mode wins; AUTO prefers same-`(sensor, timepoint)`
cloth, then same-sensor cloth, then BASELINE if available, else ZSCORE. -/
def specResolveMode (cfg : String) (meta : List SampleRecord)
    (baselineAvail : Bool) (row : SampleRecord) : String :=
  if cfg ≠ "AUTO" then cfg
  else if hasClothTP meta row then "CLOTH"
  else if hasClothSensor meta row then "CLOTH"
  else if baselineAvail then "BASELINE"
  else "ZSCORE"

theorem pickRefCloth_mem_of_eq_some {meta : List SampleRecord}
    {row : SampleRecord} {p : String} (h : pickRefCloth meta row = some p) :
    ∃ s ∈ meta, s.isRef = true ∧ s.hdrPath = p := by
  unfold pickRefCloth at h
  rcases h1 : (meta.filter fun s =>
      s.sensor == row.sensor && s.timepoint == row.timepoint && s.isRef).head? with
    _ | ⟨r0⟩
  · rcases h2 : (meta.filter fun s => s.sensor == row.sensor && s.isRef).head? with
      _ | ⟨r1⟩
    · simp [h1, h2] at h
    · simp only [h1, h2] at h
      have hm := List.head?_eq_some_iff.mp h2
      obtain ⟨t, ht⟩ := hm
      have : r1 ∈ meta.filter fun s => s.sensor == row.sensor && s.isRef := by
        rw [ht]; exact List.mem_cons_self _ _
      have hmem := List.mem_filter.mp this
      refine ⟨r1, hmem.1, ?_, by injection h⟩
      have := hmem.2
      simp only [Bool.and_eq_true, beq_iff_eq] at this
      exact this.2
  · simp only [h1] at h
    have hm := List.head?_eq_some_iff.mp h1
    obtain ⟨t, ht⟩ := hm
    have : r0 ∈ meta.filter fun s =>
        s.sensor == row.sensor && s.timepoint == row.timepoint && s.isRef := by
      rw [ht]; exact List.mem_cons_self _ _
    have hmem := List.mem_filter.mp this
    refine ⟨r0, hmem.1, ?_, by injection h⟩
    have := hmem.2
    simp only [Bool.and_eq_true, beq_iff_eq] at this
    exact this.2

theorem pickRefCloth_isSome_iff {meta : List SampleRecord} {row : SampleRecord} :
    (pickRefCloth meta row).isSome = true ↔
      (hasClothTP meta row || hasClothSensor meta row) = true := by
  unfold pickRefCloth hasClothTP hasClothSensor
  rcases h1 : (meta.filter fun s =>
      s.sensor == row.sensor && s.timepoint == row.timepoint && s.isRef).head? with
    _ | ⟨r0⟩
  · rcases h2 : (meta.filter fun s => s.sensor == row.sensor && s.isRef).head? with
      _ | ⟨r1⟩
    · simp only [h1, h2, Option.isSome_none]
      constructor
      · intro h; exact absurd h (by simp)
      · intro h
        rw [List.head?_eq_none_iff, List.filter_eq_nil_iff] at h1 h2
        rcases Bool.or_eq_true_iff.mp h with h | h
        · obtain ⟨s, hs, hp⟩ := List.any_eq_true.mp h
          exact absurd (show (s.sensor == row.sensor && s.timepoint == row.timepoint &&
            s.isRef) = true by
              simp only [Bool.and_eq_true] at hp ⊢
              exact ⟨⟨hp.1.2, hp.2⟩, hp.1.1⟩) (by simpa using h1 s hs)
        · obtain ⟨s, hs, hp⟩ := List.any_eq_true.mp h
          exact absurd (show (s.sensor == row.sensor && s.isRef) = true by
              simp only [Bool.and_eq_true] at hp ⊢
              exact ⟨hp.2, hp.1⟩) (by simpa using h2 s hs)
    · simp only [h1, h2, Option.isSome_some, true_iff]
      have hm := List.head?_eq_some_iff.mp h2
      obtain ⟨t, ht⟩ := hm
      have : r1 ∈ meta.filter fun s => s.sensor == row.sensor && s.isRef := by
        rw [ht]; exact List.mem_cons_self _ _
      have hmem := List.mem_filter.mp this
      apply Bool.or_eq_true_iff.mpr
      right
      apply List.any_eq_true.mpr
      refine ⟨r1, hmem.1, ?_⟩
      have := hmem.2
      simp only [Bool.and_eq_true, beq_iff_eq] at this ⊢
      exact ⟨this.2, this.1⟩
  · simp only [h1, Option.isSome_some, true_iff]
    have hm := List.head?_eq_some_iff.mp h1
    obtain ⟨t, ht⟩ := hm
    have : r0 ∈ meta.filter fun s =>
        s.sensor == row.sensor && s.timepoint == row.timepoint && s.isRef := by
      rw [ht]; exact List.mem_cons_self _ _
    have hmem := List.mem_filter.mp this
    apply Bool.or_eq_true_iff.mpr
    left
    apply List.any_eq_true.mpr
    refine ⟨r0, hmem.1, ?_⟩
    have := hmem.2
    simp only [Bool.and_eq_true, beq_iff_eq] at this ⊢
    exact ⟨⟨this.2, this.1.1⟩, this.1.2⟩

theorem truthyStr_pickRefCloth {meta : List SampleRecord} {row : SampleRecord}
    (hp : ∀ s ∈ meta, s.isRef = true → s.hdrPath ≠ "") :
    truthyStr (pickRefCloth meta row) = pickRefCloth meta row := by
  cases h : pickRefCloth meta row with
  | none => rfl
  | some p =>
    obtain ⟨s, hs, href, hpath⟩ := pickRefCloth_mem_of_eq_some h
    have hne : p ≠ "" := hpath ▸ hp s hs href
    simp [truthyStr, hne]

/-- Claim C1. Mode resolution is a deterministic total function that never
yields AUTO: a non-AUTO configured mode is returned unchanged, and under AUTO
the effective mode is CLOTH when a same-`(sensor, timepoint)` cloth reference
exists, else CLOTH when any same-sensor cloth reference exists, else BASELINE
when a baseline spectrum is available for the sample's sensor, else ZSCORE
(hypothesis: metadata paths of cloth rows are nonempty strings, as produced
by `parse_inventory.py`). -/
theorem c1_resolveMode_spec (cfg : String) (meta : List SampleRecord)
    (baselines : String → Option (List ℝ)) (r : SampleRecord)
    (hp : ∀ s ∈ meta, s.isRef = true → s.hdrPath ≠ "") :
    resolveMode cfg meta baselines r =
      specResolveMode cfg meta (baselines r.sensor).isSome r ∧
    resolveMode cfg meta baselines r ≠ "AUTO" := by
  by_cases hcfg : cfg = "AUTO"
  · subst hcfg
    unfold resolveMode specResolveMode
    rw [if_pos rfl, if_neg (show ¬("AUTO" ≠ "AUTO") by simp),
      truthyStr_pickRefCloth hp]
    cases h : pickRefCloth meta r with
    | some p =>
      have : (pickRefCloth meta r).isSome = true := by rw [h]; rfl
      have hcl := pickRefCloth_isSome_iff.mp this
      rcases Bool.or_eq_true_iff.mp hcl with htp | hsen
      · rw [htp]; exact ⟨by simp, by simp⟩
      · rw [hsen]
        rcases htp : hasClothTP meta r <;> simp
    | none =>
      have : (pickRefCloth meta r).isSome = false := by rw [h]; rfl
      have hcl : (hasClothTP meta r || hasClothSensor meta r) = false := by
        rcases hb : (hasClothTP meta r || hasClothSensor meta r)
        · rfl
        · rw [pickRefCloth_isSome_iff.mpr hb] at this; exact absurd this (by simp)
      rcases Bool.or_eq_false_iff.mp hcl with ⟨h1, h2⟩
      rw [h1, h2]
      rcases hb : (baselines r.sensor).isSome <;> simp [hb]
  · rw [resolveMode, specResolveMode, if_neg hcfg, if_pos hcfg]
    exact ⟨rfl, hcfg⟩

/-- Witness for C1 at a concrete metadata table: one VISNIR cloth row at D0
and a VISNIR sample at D3; under AUTO the sample resolves to the any-timepoint
same-sensor cloth, hence CLOTH. -/
theorem c1_resolveMode_spec_witness :
    resolveMode "AUTO"
        [⟨"a/cloth_VISNIR_D0.hdr", "VISNIR", true, "D0"⟩,
         ⟨"a/leaf_VISNIR_D3.hdr", "VISNIR", false, "D3"⟩]
        (fun _ => none) ⟨"a/leaf_VISNIR_D3.hdr", "VISNIR", false, "D3"⟩ =
      specResolveMode "AUTO"
        [⟨"a/cloth_VISNIR_D0.hdr", "VISNIR", true, "D0"⟩,
         ⟨"a/leaf_VISNIR_D3.hdr", "VISNIR", false, "D3"⟩]
        (Option.isSome (none : Option (List ℝ)))
        ⟨"a/leaf_VISNIR_D3.hdr", "VISNIR", false, "D3"⟩ ∧
    resolveMode "AUTO"
        [⟨"a/cloth_VISNIR_D0.hdr", "VISNIR", true, "D0"⟩,
         ⟨"a/leaf_VISNIR_D3.hdr", "VISNIR", false, "D3"⟩]
        (fun _ => none) ⟨"a/leaf_VISNIR_D3.hdr", "VISNIR", false, "D3"⟩ ≠ "AUTO" :=
  c1_resolveMode_spec "AUTO" _ (fun _ => none) _ (by decide)

/-! ### ZSCORE normalization (`_normalize_zscore`) -/

/-- `np.nanstd`: square root of the mean squared deviation. -/
noncomputable def nanstd (xs : List ℝ) : ℝ :=
  Real.sqrt (listMean (xs.map fun x => (x - listMean xs) ^ 2))

/-- `np.nanmin` on a finite vector (0 on empty input, which `numpy` rejects). -/
noncomputable def nanmin (xs : List ℝ) : ℝ := xs.min?.getD 0

/-- `np.nanmax` on a finite vector (0 on empty input, which `numpy` rejects). -/
noncomputable def nanmax (xs : List ℝ) : ℝ := xs.max?.getD 0

/-- `_normalize_zscore`: z-score the sample, then rescale to `[0, 1]`;
degenerate stds give the zero vector, degenerate z-ranges the 0.5 vector. -/
noncomputable def normalizeZscore (xs : List ℝ) : List ℝ :=
  let mean := listMean xs
  let std := nanstd xs
  if std < eps then xs.map fun _ => 0
  else
    let z := xs.map fun x => (x - mean) / std
    let minZ := nanmin z
    let maxZ := nanmax z
    if maxZ - minZ < eps then xs.map fun _ => 0.5
    else z.map fun v => (v - minZ) / (maxZ - minZ)

theorem nanmin_le_of_mem {xs : List ℝ} {x : ℝ} (hx : x ∈ xs) :
    nanmin xs ≤ x := by
  cases xs with
  | nil => simp at hx
  | cons a t =>
    have hm : (a :: t).min? = some (t.foldl min a) := List.min?_cons'
    rw [nanmin, hm, Option.getD_some]
    exact (List.le_min?_iff (fun a b c => le_min_iff) hm).mp le_rfl x hx

theorem le_nanmax_of_mem {xs : List ℝ} {x : ℝ} (hx : x ∈ xs) :
    x ≤ nanmax xs := by
  cases xs with
  | nil => simp at hx
  | cons a t =>
    have hm : (a :: t).max? = some (t.foldl max a) := List.max?_cons'
    rw [nanmax, hm, Option.getD_some]
    exact (List.max?_le_iff (fun a b c => max_le_iff) hm).mp le_rfl x hx

/-- Claim C2. ZSCORE normalization: the all-zero vector when the standard
deviation is below `1e-9`; the constant-0.5 vector when the z-scored range is
degenerate; otherwise the z-scores rescaled by their own min/max; and each
output element always lies in `[0, 1]`. -/
theorem c2_normalizeZscore_spec (xs : List ℝ) :
    (nanstd xs < eps → normalizeZscore xs = xs.map fun _ => 0) ∧
    (¬ nanstd xs < eps →
      nanmax (xs.map fun x => (x - listMean xs) / nanstd xs) -
          nanmin (xs.map fun x => (x - listMean xs) / nanstd xs) < eps →
        normalizeZscore xs = xs.map fun _ => 0.5) ∧
    (¬ nanstd xs < eps →
      ¬ (nanmax (xs.map fun x => (x - listMean xs) / nanstd xs) -
          nanmin (xs.map fun x => (x - listMean xs) / nanstd xs) < eps) →
        normalizeZscore xs =
          (xs.map fun x => (x - listMean xs) / nanstd xs).map fun v =>
            (v - nanmin (xs.map fun x => (x - listMean xs) / nanstd xs)) /
              (nanmax (xs.map fun x => (x - listMean xs) / nanstd xs) -
                nanmin (xs.map fun x => (x - listMean xs) / nanstd xs))) ∧
    ∀ y ∈ normalizeZscore xs, 0 ≤ y ∧ y ≤ 1 := by
  refine ⟨fun h => by rw [normalizeZscore, if_pos h],
    fun h1 h2 => by rw [normalizeZscore, if_neg h1, if_pos h2],
    fun h1 h2 => by rw [normalizeZscore, if_neg h1, if_neg h2], ?_⟩
  intro y hy
  rw [normalizeZscore] at hy
  by_cases h1 : nanstd xs < eps
  · rw [if_pos h1] at hy
    obtain ⟨x, _, hx⟩ := List.mem_map.mp hy
    rw [← hx]
    norm_num
  · rw [if_neg h1] at hy
    set z := xs.map fun x => (x - listMean xs) / nanstd xs with hz
    by_cases h2 : nanmax z - nanmin z < eps
    · rw [if_pos h2] at hy
      obtain ⟨x, _, hx⟩ := List.mem_map.mp hy
      rw [← hx]
      norm_num
    · rw [if_neg h2] at hy
      obtain ⟨v, hv, hvy⟩ := List.mem_map.mp hy
      have hrange : (0 : ℝ) < nanmax z - nanmin z := by
        have heps : (0 : ℝ) < eps := by rw [eps]; norm_num
        exact lt_of_lt_of_le heps (not_lt.mp h2)
      have hlo : nanmin z ≤ v := nanmin_le_of_mem hv
      have hhi : v ≤ nanmax z := le_nanmax_of_mem hv
      rw [← hvy]
      constructor
      · exact div_nonneg (by linarith) (le_of_lt hrange)
      · rw [div_le_one hrange]
        linarith

/-- Witness for C2 at the concrete flat spectrum `[0]`: its standard
deviation is 0, so the output is the zero vector. -/
theorem c2_normalizeZscore_spec_witness :
    nanstd [(0 : ℝ)] < eps ∧
      normalizeZscore [(0 : ℝ)] = [(0 : ℝ)].map fun _ => 0 := by
  have h : nanstd [(0 : ℝ)] < eps := by
    have h0 : nanstd [(0 : ℝ)] = 0 := by
      simp [nanstd, listMean]
    rw [h0, eps]
    norm_num
  exact ⟨h, (c2_normalizeZscore_spec [(0 : ℝ)]).1 h⟩

/-- Claim C3. The CLOTH and BASELINE normalizers both compute
`clip(sample / max(reference, 1e-9), 0, 2.0)`, and every output element
lies in `[0, 2]`. -/
theorem c3_cloth_baseline_bounds (sample ref : List ℝ) :
    normalizeCloth sample ref =
      List.zipWith (fun s r => npClip (s / max r eps) 0 2) sample ref ∧
    normalizeBaseline sample ref =
      List.zipWith (fun s r => npClip (s / max r eps) 0 2) sample ref ∧
    (∀ y ∈ normalizeCloth sample ref, 0 ≤ y ∧ y ≤ 2) ∧
    (∀ y ∈ normalizeBaseline sample ref, 0 ≤ y ∧ y ≤ 2) :=
  ⟨rfl, rfl, fun _ hy => zipWith_clip_mem hy, fun _ hy => zipWith_clip_mem hy⟩

/-- Witness for C3 at `sample = [1]`, `ref = [2]`: the single output element
is `1/2`, and the theorem places it in `[0, 2]`. -/
theorem c3_cloth_baseline_bounds_witness :
    ((1 : ℝ) / 2) ∈ normalizeCloth [1] [2] ∧
      (0 ≤ (1 : ℝ) / 2 ∧ (1 : ℝ) / 2 ≤ 2) := by
  have hmem : ((1 : ℝ) / 2) ∈ normalizeCloth [1] [2] := by
    have : normalizeCloth [(1 : ℝ)] [(2 : ℝ)] = [(1 : ℝ) / 2] := by
      rw [normalizeCloth]
      simp only [List.zipWith_cons_cons, List.zipWith_nil_right]
      have hmax : max (2 : ℝ) eps = 2 := max_eq_left (by rw [eps]; norm_num)
      rw [hmax, npClip]
      norm_num
    rw [this]
    exact List.mem_singleton.mpr rfl
  exact ⟨hmem, (c3_cloth_baseline_bounds [1] [2]).2.2.1 _ hmem⟩

/-! ### NONE policy: clip to own 99.9th percentile -/

/-- `np.percentile(xs, 99.9)` with the default linear interpolation: sort
ascending, take the virtual index `h = (n - 1) * 99.9 / 100`, and
interpolate between the neighbouring order statistics. -/
noncomputable def percentile999 (xs : List ℝ) : ℝ :=
  let s := xs.insertionSort (· ≤ ·)
  let h := ((xs.length : ℝ) - 1) * (999 / 1000)
  let i := (⌊h⌋ : ℤ)
  let lo := s.getD i.toNat 0
  let hi := s.getD (i.toNat + 1) lo
  lo + (h - (i : ℝ)) * (hi - lo)

/-- The NONE fallback, `np.clip(spec, 0, np.percentile(spec, 99.9))`, as it
appears three times in `main` of `export_spectra.py`. -/
noncomputable def nonePolicy (xs : List ℝ) : List ℝ :=
  xs.map fun x => npClip x 0 (percentile999 xs)

/-- Counterexample to claim C7 as stated: at the all-negative sample `[-1]`
the 99.9th percentile is `-1`, and `np.clip(x, 0, hi)` applies the upper
bound last, so the output `[-1]` contains a negative value. -/
theorem c7_counterexample :
    percentile999 [(-1 : ℝ)] = -1 ∧
    nonePolicy [(-1 : ℝ)] = [(-1 : ℝ)] ∧
    ¬ ∀ y ∈ nonePolicy [(-1 : ℝ)], 0 ≤ y := by
  have hp : percentile999 [(-1 : ℝ)] = -1 := by
    rw [percentile999]
    simp only [List.insertionSort, List.orderedInsert, List.length_cons,
      List.length_nil]
    norm_num
  have hn : nonePolicy [(-1 : ℝ)] = [(-1 : ℝ)] := by
    rw [nonePolicy, hp]
    simp only [List.map_cons, List.map_nil, npClip]
    norm_num
  refine ⟨hp, hn, fun hall => ?_⟩
  have := hall (-1) (by rw [hn]; exact List.mem_singleton.mpr rfl)
  linarith

/-- Claim C7, amended: the NONE fallback returns
`clip(sample, 0, percentile999(sample))`; no output value exceeds the
sample's own 99.9th percentile, and no output value is negative *provided
that percentile is nonnegative* (`np.clip` applies the upper bound last, so
a negative percentile wins over the lower bound 0). -/
theorem c7_nonePolicy_amended (xs : List ℝ) :
    nonePolicy xs = (xs.map fun x => npClip x 0 (percentile999 xs)) ∧
    (∀ y ∈ nonePolicy xs, y ≤ percentile999 xs) ∧
    (0 ≤ percentile999 xs → ∀ y ∈ nonePolicy xs, 0 ≤ y) := by
  refine ⟨rfl, ?_, ?_⟩
  · intro y hy
    obtain ⟨x, _, hx⟩ := List.mem_map.mp hy
    rw [← hx, npClip]
    exact min_le_left _ _
  · intro hpos y hy
    obtain ⟨x, _, hx⟩ := List.mem_map.mp hy
    rw [← hx, npClip]
    exact le_min hpos (le_max_right _ _)

/-- Witness for C7 (amended) at `xs = [1]`: the percentile is `1 ≥ 0` and the
single output element lies in `[0, 1]`. -/
theorem c7_nonePolicy_amended_witness :
    0 ≤ percentile999 [(1 : ℝ)] ∧
    ∀ y ∈ nonePolicy [(1 : ℝ)], 0 ≤ y ∧ y ≤ percentile999 [(1 : ℝ)] := by
  have hp : percentile999 [(1 : ℝ)] = 1 := by
    rw [percentile999]
    simp only [List.insertionSort, List.orderedInsert, List.length_cons,
      List.length_nil]
    norm_num
  have hpos : 0 ≤ percentile999 [(1 : ℝ)] := by rw [hp]; norm_num
  exact ⟨hpos, fun y hy =>
    ⟨(c7_nonePolicy_amended [(1 : ℝ)]).2.2 hpos y hy,
     (c7_nonePolicy_amended [(1 : ℝ)]).2.1 y hy⟩⟩

/-! ### The per-sample pipeline of `main` (`export_spectra.py` lines 170-238) -/

/-- One data row of a `*_spectrum.csv` file, as written by the Spectrum
Writer: `[i, wav, val, sensor, timepoint, ref_file, norm_mode_used]`. -/
structure OutRow where
  bandIdx : ℕ
  wavelengthNm : ℝ
  reflNorm : ℝ
  sensor : String
  timepoint : String
  refFile : String
  normModeUsed : String

/-- A successfully written sample output: header-mode annotation, the
`ref_file_used` provenance value, and the data rows. -/
structure SampleOutput where
  normModeUsed : String
  refFileUsed : String
  rows : List OutRow

/-- `Path(s).name`: the final POSIX path component. -/
def pathName (s : String) : String := (s.splitOn "/").getLastD s

/-- The row block written for one sample:
`for i, (wav, val) in enumerate(zip(wl, spec_n))`. -/
def mkRows (wl spec : List ℝ) (r : SampleRecord) (ref mode : String) :
    List OutRow :=
  (wl.zip spec).enum.map fun p =>
    ⟨p.1, p.2.1, p.2.2, r.sensor, r.timepoint, ref, mode⟩

/-- The body of `main`'s per-sample loop: load the cube (a `none` from
`loader` models a raised exception, caught by the outer `except` which logs
ERR and skips the sample), resolve the mode, execute the normalization with
its degrade paths, and emit the rows. -/
noncomputable def processSample (cfg : String) (meta : List SampleRecord)
    (baselines : String → Option (List ℝ))
    (loader : String → Option (Cube × List ℝ)) (r : SampleRecord) :
    Option SampleOutput :=
  match loader r.hdrPath with
  | none => none
  | some (cube_s, wl) =>
    let spec_s := meanSpectrum cube_s
    let mode0 := resolveMode cfg meta baselines r
    if mode0 = "CLOTH" then
      match truthyStr (pickRefCloth meta r) with
      | some refHdr =>
        match loader refHdr with
        | none => none
        | some (cube_r, _) =>
          some ⟨"CLOTH", pathName refHdr,
            mkRows wl (normalizeCloth spec_s (meanSpectrum cube_r)) r
              (pathName refHdr) "CLOTH"⟩
      | none =>
        some ⟨"NONE", "NONE", mkRows wl (nonePolicy spec_s) r "NONE" "NONE"⟩
    else if mode0 = "BASELINE" then
      match baselines r.sensor with
      | some bspec =>
        some ⟨"BASELINE", "BASELINE_" ++ r.sensor,
          mkRows wl (normalizeBaseline spec_s bspec) r
            ("BASELINE_" ++ r.sensor) "BASELINE"⟩
      | none =>
        some ⟨"NONE", "NONE", mkRows wl (nonePolicy spec_s) r "NONE" "NONE"⟩
    else if mode0 = "ZSCORE" then
      some ⟨"ZSCORE", "ZSCORE", mkRows wl (normalizeZscore spec_s) r
        "ZSCORE" "ZSCORE"⟩
    else
      some ⟨mode0, "NONE", mkRows wl (nonePolicy spec_s) r "NONE" mode0⟩

theorem truthyStr_eq_some {o : Option String} {s : String}
    (h : truthyStr o = some s) : o = some s ∧ s ≠ "" := by
  cases o with
  | none => simp [truthyStr] at h
  | some t =>
    by_cases ht : t = ""
    · simp [truthyStr, ht] at h
    · simp only [truthyStr, if_neg ht] at h
      injection h with h'
      subst h'
      exact ⟨rfl, ht⟩


/-- Claim C6, amended. In effective CLOTH mode: when a cloth reference is
*selected* but loading it raises, the exception propagates to the outer
handler and the sample is aborted (logged ERR, nothing written) — it is not
degraded to NONE; the NONE degrade path (clip to own 99.9th percentile,
recorded mode exactly "NONE") fires only when *no* cloth reference is
selected under a configured CLOTH mode. In neither case is CLOTH claimed. -/
theorem c6_cloth_ref_load_amended (cfg : String) (meta : List SampleRecord)
    (baselines : String → Option (List ℝ))
    (loader : String → Option (Cube × List ℝ)) (r : SampleRecord)
    (hcfg : cfg = "CLOTH" ∨ cfg = "AUTO") :
    (∀ p, truthyStr (pickRefCloth meta r) = some p → loader p = none →
      processSample cfg meta baselines loader r = none) ∧
    (cfg = "CLOTH" → truthyStr (pickRefCloth meta r) = none →
      ∀ cube wl, loader r.hdrPath = some (cube, wl) →
        processSample cfg meta baselines loader r =
          some ⟨"NONE", "NONE",
            mkRows wl (nonePolicy (meanSpectrum cube)) r "NONE" "NONE"⟩) := by
  constructor
  · intro p htr hfail
    have hmode : resolveMode cfg meta baselines r = "CLOTH" := by
      rcases hcfg with h | h
      · rw [resolveMode, h]
        simp
      · rw [resolveMode, h, if_pos rfl, htr]
    cases hL : loader r.hdrPath with
    | none => simp only [processSample, hL]
    | some cw =>
      obtain ⟨cube, wl⟩ := cw
      simp only [processSample, hL, hmode, htr, hfail, if_pos]
  · intro hc htr cube wl hL
    have hmode : resolveMode cfg meta baselines r = "CLOTH" := by
      rw [resolveMode, hc]
      simp
    simp only [processSample, hL, hmode, htr, if_pos]

/-- Metadata for the C6 scenario: one VISNIR sample and one VISNIR cloth
reference at the same timepoint. -/
def cexMeta : List SampleRecord :=
  [⟨"d/s.hdr", "VISNIR", false, "D1"⟩, ⟨"d/c.hdr", "VISNIR", true, "D1"⟩]

/-- The sample row of `cexMeta`. -/
def cexRow : SampleRecord := ⟨"d/s.hdr", "VISNIR", false, "D1"⟩

/-- A loader that decodes the sample cube but raises on the cloth
reference `d/c.hdr`. -/
noncomputable def cexLoader : String → Option (Cube × List ℝ) := fun p =>
  if p = "d/s.hdr" then some ([[1]], [500]) else none

/-- Counterexample to claim C6 as stated: the effective mode is CLOTH and
the cloth reference `d/c.hdr` is selected, its load fails, and the sample is
*not* written with the NONE policy — `processSample` returns `none`
(the outer `except` logs ERR and skips the sample). -/
theorem c6_counterexample :
    truthyStr (pickRefCloth cexMeta cexRow) = some "d/c.hdr" ∧
    cexLoader "d/c.hdr" = none ∧
    processSample "AUTO" cexMeta (fun _ => none) cexLoader cexRow = none := by
  refine ⟨rfl, ?_, ?_⟩
  · rw [cexLoader]
    exact if_neg (by decide)
  · rfl

/-- Witness for C6 (amended), applying it to the concrete scenario of
`cexMeta`: the selected reference `d/c.hdr` fails to load, and the sample is
aborted. -/
theorem c6_cloth_ref_load_amended_witness :
    processSample "AUTO" cexMeta (fun _ => none) cexLoader cexRow = none := by
  have h1 : truthyStr (pickRefCloth cexMeta cexRow) = some "d/c.hdr" := rfl
  have h2 : cexLoader "d/c.hdr" = none := by
    rw [cexLoader]
    exact if_neg (by decide)
  exact (c6_cloth_ref_load_amended "AUTO" cexMeta (fun _ => none) cexLoader
    cexRow (Or.inr rfl)).1 "d/c.hdr" h1 h2

theorem mkRows_fields {wl spec : List ℝ} {r : SampleRecord}
    {ref mode : String} :
    ∀ row ∈ mkRows wl spec r ref mode,
      row.refFile = ref ∧ row.normModeUsed = mode := by
  intro row hrow
  obtain ⟨p, _, hp⟩ := List.mem_map.mp hrow
  rw [← hp]
  exact ⟨rfl, rfl⟩

theorem baselineTag_ne_NONE (s : String) : "BASELINE_" ++ s ≠ "NONE" := by
  intro h
  have hl := congrArg String.length h
  rw [String.length_append] at hl
  have h9 : ("BASELINE_" : String).length = 9 := rfl
  have h4 : ("NONE" : String).length = 4 := rfl
  rw [h9, h4] at hl
  omega

theorem baselineTag_ne_ZSCORE (s : String) : "BASELINE_" ++ s ≠ "ZSCORE" := by
  intro h
  have hl := congrArg String.length h
  rw [String.length_append] at hl
  have h9 : ("BASELINE_" : String).length = 9 := rfl
  have h6 : ("ZSCORE" : String).length = 6 := rfl
  rw [h9, h6] at hl
  omega

theorem resolveMode_mem (cfg : String) (meta : List SampleRecord)
    (baselines : String → Option (List ℝ)) (r : SampleRecord)
    (hcfg : cfg = "AUTO" ∨ cfg = "CLOTH" ∨ cfg = "BASELINE" ∨ cfg = "ZSCORE") :
    resolveMode cfg meta baselines r = "CLOTH" ∨
    resolveMode cfg meta baselines r = "BASELINE" ∨
    resolveMode cfg meta baselines r = "ZSCORE" := by
  rcases hcfg with h | h | h | h
  · rw [resolveMode, h, if_pos rfl]
    rcases htr : truthyStr (pickRefCloth meta r) with _ | p
    · by_cases hb : (baselines r.sensor).isSome
      · rw [if_pos hb]
        exact Or.inr (Or.inl rfl)
      · rw [if_neg hb]
        exact Or.inr (Or.inr rfl)
    · exact Or.inl rfl
  · rw [resolveMode, h, if_neg (by decide)]
    exact Or.inl rfl
  · rw [resolveMode, h, if_neg (by decide)]
    exact Or.inr (Or.inl rfl)
  · rw [resolveMode, h, if_neg (by decide)]
    exact Or.inr (Or.inr rfl)

/-- Claim C9 (implicit). Every data row written for a sample carries the one
`(ref_file, norm_mode_used)` pair of that sample, and the reference
identifier determines the mode: `"NONE"` exactly for mode NONE, `"ZSCORE"`
exactly for mode ZSCORE, `"BASELINE_<sensor>"` exactly for mode BASELINE,
and the selected cloth reference's file name exactly for mode CLOTH
(hypotheses: the configured mode is one of the four documented values, and
cloth file names — `*.hdr` basenames in practice — are distinct from the
three synthetic tags). -/
theorem c9_row_provenance (cfg : String) (meta : List SampleRecord)
    (baselines : String → Option (List ℝ))
    (loader : String → Option (Cube × List ℝ)) (r : SampleRecord)
    (out : SampleOutput)
    (hcfg : cfg = "AUTO" ∨ cfg = "CLOTH" ∨ cfg = "BASELINE" ∨ cfg = "ZSCORE")
    (hp : ∀ s ∈ meta, s.isRef = true →
      pathName s.hdrPath ≠ "NONE" ∧ pathName s.hdrPath ≠ "ZSCORE" ∧
      pathName s.hdrPath ≠ "BASELINE_" ++ r.sensor)
    (hout : processSample cfg meta baselines loader r = some out) :
    (∀ row ∈ out.rows, row.refFile = out.refFileUsed ∧
      row.normModeUsed = out.normModeUsed) ∧
    (out.refFileUsed = "NONE" ↔ out.normModeUsed = "NONE") ∧
    (out.refFileUsed = "ZSCORE" ↔ out.normModeUsed = "ZSCORE") ∧
    (out.refFileUsed = "BASELINE_" ++ r.sensor ↔
      out.normModeUsed = "BASELINE") ∧
    (out.normModeUsed = "CLOTH" ↔ ∃ p,
      truthyStr (pickRefCloth meta r) = some p ∧
        out.refFileUsed = pathName p) := by
  cases hL : loader r.hdrPath with
  | none => simp [processSample, hL] at hout
  | some cw =>
    obtain ⟨cube, wl⟩ := cw
    by_cases hcl : resolveMode cfg meta baselines r = "CLOTH"
    · rcases htr : truthyStr (pickRefCloth meta r) with _ | refHdr
      · -- degrade to NONE: no reference selected
        simp only [processSample, hL, hcl, htr, if_pos] at hout
        injection hout with h
        subst h
        refine ⟨mkRows_fields, Iff.rfl, ?_, ?_, ?_⟩
        · exact ⟨fun h => absurd h (by simp), fun h => absurd h (by simp)⟩
        · exact ⟨fun h => absurd h.symm (baselineTag_ne_NONE r.sensor),
            fun h => absurd h (by simp)⟩
        · constructor
          · intro h
            exact absurd h (by simp)
          · rintro ⟨p, hp', -⟩
            exact Option.noConfusion hp'
      · rcases hld : loader refHdr with _ | cw2
        · simp only [processSample, hL, hcl, htr, hld, if_pos] at hout
          exact Option.noConfusion hout
        · obtain ⟨cube2, wl2⟩ := cw2
          simp only [processSample, hL, hcl, htr, hld, if_pos] at hout
          injection hout with h
          subst h
          obtain ⟨hpick, -⟩ := truthyStr_eq_some htr
          obtain ⟨s, hs, hsref, hspath⟩ := pickRefCloth_mem_of_eq_some hpick
          obtain ⟨hn1, hn2, hn3⟩ := hp s hs hsref
          rw [hspath] at hn1 hn2 hn3
          refine ⟨mkRows_fields, ?_, ?_, ?_, ?_⟩
          · exact ⟨fun h => absurd h hn1, fun h => absurd h (by simp)⟩
          · exact ⟨fun h => absurd h hn2, fun h => absurd h (by simp)⟩
          · exact ⟨fun h => absurd h.symm hn3.symm,
              fun h => absurd h (by simp)⟩
          · exact ⟨fun _ => ⟨refHdr, rfl, rfl⟩, fun _ => rfl⟩
    · by_cases hba : resolveMode cfg meta baselines r = "BASELINE"
      · rcases hbl : baselines r.sensor with _ | bspec
        · -- degrade to NONE: no baseline available
          simp only [processSample, hL, if_neg hcl, hba, hbl, if_pos] at hout
          injection hout with h
          subst h
          refine ⟨mkRows_fields, Iff.rfl, ?_, ?_, ?_⟩
          · exact ⟨fun h => absurd h (by simp), fun h => absurd h (by simp)⟩
          · exact ⟨fun h => absurd h.symm (baselineTag_ne_NONE r.sensor),
              fun h => absurd h (by simp)⟩
          · constructor
            · intro h
              exact absurd h (by simp)
            · rintro ⟨p, hp', hpn⟩
              obtain ⟨hpick, -⟩ := truthyStr_eq_some hp'
              obtain ⟨s, hs, hsref, hspath⟩ := pickRefCloth_mem_of_eq_some hpick
              obtain ⟨hn1, -, -⟩ := hp s hs hsref
              rw [hspath] at hn1
              exact absurd hpn.symm hn1
        · simp only [processSample, hL, if_neg hcl, hba, hbl, if_pos] at hout
          injection hout with h
          subst h
          refine ⟨mkRows_fields, ?_, ?_, ?_, ?_⟩
          · exact ⟨fun h => absurd h (baselineTag_ne_NONE r.sensor),
              fun h => absurd h (by simp)⟩
          · exact ⟨fun h => absurd h (baselineTag_ne_ZSCORE r.sensor),
              fun h => absurd h (by simp)⟩
          · exact ⟨fun _ => rfl, fun _ => rfl⟩
          · constructor
            · intro h
              exact absurd h (by simp)
            · rintro ⟨p, hp', hpn⟩
              obtain ⟨hpick, -⟩ := truthyStr_eq_some hp'
              obtain ⟨s, hs, hsref, hspath⟩ := pickRefCloth_mem_of_eq_some hpick
              obtain ⟨-, -, hn3⟩ := hp s hs hsref
              rw [hspath] at hn3
              exact absurd hpn.symm hn3
      · have hz : resolveMode cfg meta baselines r = "ZSCORE" := by
          rcases resolveMode_mem cfg meta baselines r hcfg with h | h | h
          · exact absurd h hcl
          · exact absurd h hba
          · exact h
        simp only [processSample, hL, if_neg hcl, if_neg hba, hz, if_pos]
          at hout
        injection hout with h
        subst h
        refine ⟨mkRows_fields, ?_, Iff.rfl, ?_, ?_⟩
        · exact ⟨fun h => absurd h (by simp), fun h => absurd h (by simp)⟩
        · exact ⟨fun h => absurd h.symm (baselineTag_ne_ZSCORE r.sensor),
            fun h => absurd h (by simp)⟩
        · constructor
          · intro h
            exact absurd h (by simp)
          · rintro ⟨p, hp', hpn⟩
            obtain ⟨hpick, -⟩ := truthyStr_eq_some hp'
            obtain ⟨s, hs, hsref, hspath⟩ := pickRefCloth_mem_of_eq_some hpick
            obtain ⟨-, hn2, -⟩ := hp s hs hsref
            rw [hspath] at hn2
            exact absurd hpn.symm hn2

/-- The output produced for `cexRow` when CLOTH is configured but no cloth
row exists: the degrade path records mode NONE. -/
noncomputable def c9Out : SampleOutput :=
  ⟨"NONE", "NONE", mkRows [] (nonePolicy (meanSpectrum [])) cexRow "NONE" "NONE"⟩

/-- Witness for C9 at a concrete run: configured CLOTH with no cloth rows
degrades to NONE, and the written reference identifier is "NONE" exactly
because the recorded mode is "NONE". -/
theorem c9_row_provenance_witness :
    c9Out.refFileUsed = "NONE" ↔ c9Out.normModeUsed = "NONE" :=
  (c9_row_provenance "CLOTH" [cexRow] (fun _ => none)
    (fun _ => some (([] : Cube), ([] : List ℝ))) cexRow c9Out
    (Or.inr (Or.inl rfl)) (by decide) rfl).2.1

/-! ### Baseline cache (`_get_baseline_spectrum`) -/

/-- `config.BASELINE_RULE`: the timepoint designated as the healthy
baseline. -/
def BASELINE_RULE : String := "D0"

/-- `np.nanmean(np.array(specs), axis=0)`: band-wise mean across spectra. -/
noncomputable def bandMean (specs : List (List ℝ)) : List ℝ :=
  (List.transpose specs).map listMean

/-- `_get_baseline_spectrum`: return a persisted baseline verbatim if one
exists; else average the mean spectra of all same-sensor, non-reference,
baseline-timepoint samples, excluding cubes whose load raises; absent
(`none`) when no qualifying sample exists or no contributing cube loads.
The `persisted` parameter models the `baseline_<sensor>.csv` file contents
(its `refl_mean` column); persisting the computed result is a side effect
outside this model. -/
noncomputable def getBaselineSpectrum (persisted : Option (List ℝ))
    (meta : List SampleRecord) (sensor : String)
    (loader : String → Option (Cube × List ℝ)) : Option (List ℝ) :=
  match persisted with
  | some spec => some spec
  | none =>
    let baseline_samples := meta.filter fun s =>
      s.sensor == sensor && s.timepoint == BASELINE_RULE && !s.isRef
    if baseline_samples = [] then none
    else
      let all_specs := baseline_samples.filterMap fun s =>
        (loader s.hdrPath).map fun cw => meanSpectrum cw.1
      if all_specs = [] then none
      else some (bandMean all_specs)

/-- Claim C8. The baseline lookup returns a persisted spectrum verbatim; it
is absent (never empty/zero) when no qualifying sample exists; a cube whose
load fails is excluded from the band-wise average (which runs over exactly
the successfully loaded cubes); and if no contributing cube loads the
result is absent rather than an exception. -/
theorem c8_baseline_cache (persisted : Option (List ℝ))
    (meta : List SampleRecord) (sensor : String)
    (loader : String → Option (Cube × List ℝ)) :
    (∀ b, persisted = some b →
      getBaselineSpectrum persisted meta sensor loader = some b) ∧
    (persisted = none →
      (meta.filter fun s =>
        s.sensor == sensor && s.timepoint == BASELINE_RULE && !s.isRef) = [] →
      getBaselineSpectrum persisted meta sensor loader = none) ∧
    (persisted = none →
      (∀ s ∈ meta.filter fun s =>
          s.sensor == sensor && s.timepoint == BASELINE_RULE && !s.isRef,
        loader s.hdrPath = none) →
      getBaselineSpectrum persisted meta sensor loader = none) ∧
    (persisted = none →
      ∀ specs,
        (meta.filter fun s =>
            s.sensor == sensor && s.timepoint == BASELINE_RULE &&
              !s.isRef).filterMap
          (fun s => (loader s.hdrPath).map fun cw => meanSpectrum cw.1) =
            specs →
        specs ≠ [] →
        getBaselineSpectrum persisted meta sensor loader =
          some (bandMean specs)) := by
  refine ⟨?_, ?_, ?_, ?_⟩
  · intro b hb
    subst hb
    rfl
  · intro hper hfil
    subst hper
    simp only [getBaselineSpectrum, hfil, if_pos]
  · intro hper hall
    subst hper
    have hfm : (meta.filter fun s =>
        s.sensor == sensor && s.timepoint == BASELINE_RULE &&
          !s.isRef).filterMap
        (fun s => (loader s.hdrPath).map fun cw => meanSpectrum cw.1) = [] := by
      rw [List.filterMap_eq_nil_iff]
      intro s hs
      rw [hall s hs]
      rfl
    by_cases hfil : (meta.filter fun s =>
        s.sensor == sensor && s.timepoint == BASELINE_RULE && !s.isRef) = []
    · simp only [getBaselineSpectrum, hfil, if_pos]
    · simp only [getBaselineSpectrum, if_neg hfil, hfm, if_pos]
  · intro hper specs hspecs hne
    subst hper
    have hfil : (meta.filter fun s =>
        s.sensor == sensor && s.timepoint == BASELINE_RULE && !s.isRef) ≠ [] := by
      intro h
      rw [h] at hspecs
      simp only [List.filterMap_nil] at hspecs
      exact hne hspecs.symm
    simp only [getBaselineSpectrum, if_neg hfil, hspecs]
    rw [if_neg hne]

/-- Witness for C8: one qualifying D0 sample whose cube fails to load —
the baseline is absent (`none`), not an error. -/
theorem c8_baseline_cache_witness :
    getBaselineSpectrum none [⟨"b.hdr", "VISNIR", false, "D0"⟩] "VISNIR"
      (fun _ => none) = none :=
  (c8_baseline_cache none [⟨"b.hdr", "VISNIR", false, "D0"⟩] "VISNIR"
    (fun _ => none)).2.2.1 rfl (fun _ _ => rfl)

/-! ### Self-check validator (`self_check.py`, `_validate_spectra`) -/

/-- Is `pat` a contiguous substring of the character list (`in` on Python
strings)? -/
def hasSubstring (pat : List Char) : List Char → Bool
  | [] => pat.isEmpty
  | c :: t => pat.isPrefixOf (c :: t) || hasSubstring pat t

/-- The mode read from a spectrum file's first line:
`first_line.split(":")[-1].strip()` when the line contains
`"Normalization mode used"`, else `"UNKNOWN"`. -/
def headerMode (firstLine : String) : String :=
  if hasSubstring "Normalization mode used".data firstLine.data then
    ((firstLine.splitOn ":").getLastD "").trim
  else "UNKNOWN"

/-- One parsed data row of a `*_spectrum.csv`, restricted to the two columns
the validator's checks read (`refl_norm`, `norm_mode_used`); reflectance is
a rational, so every value is finite and the `np.isfinite` check is
vacuous in this model. -/
structure VRow where
  reflNorm : ℚ
  normModeUsed : String
deriving DecidableEq, Repr

/-- A produced spectrum table: the comment first line plus its data rows. -/
structure SpectrumFileData where
  firstLine : String
  rows : List VRow
deriving DecidableEq, Repr

/-- `pandas.Series.unique`: distinct values in order of first occurrence. -/
def uniqueFirst : List String → List String
  | [] => []
  | x :: t => x :: (uniqueFirst t).filter fun y => y != x

/-- The mode-consistency check of `_validate_spectra` (lines 128-131):
pass iff the `norm_mode_used` column has exactly one unique value and it
equals the header-declared mode. -/
def modeCheckPasses (f : SpectrumFileData) : Bool :=
  let u := uniqueFirst (f.rows.map fun r => r.normModeUsed)
  u.length == 1 && u.headD "" == headerMode f.firstLine

/-- `modes_in_col[0]`, the per-file mode recorded into `norm_mode_counts`. -/
def fileMode (f : SpectrumFileData) : String :=
  (uniqueFirst (f.rows.map fun r => r.normModeUsed)).headD ""

/-- The per-file validation of `_validate_spectra`: the mode-consistency
check, then the mode-dependent range checks (no range check for modes other
than CLOTH/BASELINE/ZSCORE). -/
def validateFile (f : SpectrumFileData) : Except String Unit :=
  if ¬ ((uniqueFirst (f.rows.map fun r => r.normModeUsed)).length = 1 ∧
      (uniqueFirst (f.rows.map fun r => r.normModeUsed)).headD "" =
        headerMode f.firstLine)
  then Except.error "Inconsistent norm_mode_used"
  else if (fileMode f = "CLOTH" ∨ fileMode f = "BASELINE") ∧
      f.rows.any (fun r => decide (r.reflNorm < 0) || decide (r.reflNorm > 2))
  then Except.error "reflectance outside the CLOTH/BASELINE range"
  else if fileMode f = "ZSCORE" ∧
      f.rows.any (fun r => decide (r.reflNorm < 0) || decide (r.reflNorm > 1))
  then Except.error "reflectance outside the ZSCORE range"
  else Except.ok ()

theorem uniqueFirst_eq_nil_iff {l : List String} :
    uniqueFirst l = [] ↔ l = [] := by
  cases l with
  | nil => simp [uniqueFirst]
  | cons x t => simp [uniqueFirst]

theorem mem_uniqueFirst {y : String} :
    ∀ {l : List String}, y ∈ uniqueFirst l ↔ y ∈ l
  | [] => by simp [uniqueFirst]
  | x :: t => by
    rw [uniqueFirst]
    simp only [List.mem_cons, List.mem_filter, bne_iff_ne, ne_eq]
    constructor
    · rintro (h | ⟨h1, -⟩)
      · exact Or.inl h
      · exact Or.inr (mem_uniqueFirst.mp h1)
    · rintro (h | h)
      · exact Or.inl h
      · by_cases hx : y = x
        · exact Or.inl hx
        · exact Or.inr ⟨mem_uniqueFirst.mpr h, hx⟩

theorem uniqueFirst_singleton {l : List String} {m : String} :
    uniqueFirst l = [m] ↔ l ≠ [] ∧ ∀ x ∈ l, x = m := by
  cases l with
  | nil => simp [uniqueFirst]
  | cons x t =>
    rw [uniqueFirst]
    constructor
    · intro h
      injection h with h1 h2
      subst h1
      rw [List.filter_eq_nil_iff] at h2
      refine ⟨by simp, ?_⟩
      intro y hy
      rcases List.mem_cons.mp hy with hy | hy
      · exact hy
      · have := h2 y (mem_uniqueFirst.mpr hy)
        simpa using this
    · rintro ⟨-, hall⟩
      have hx : x = m := hall x (List.mem_cons_self x t)
      subst hx
      have hf : ((uniqueFirst t).filter fun y => y != x) = [] := by
        rw [List.filter_eq_nil_iff]
        intro y hy
        have := hall y (List.mem_cons_of_mem x (mem_uniqueFirst.mp hy))
        subst this
        simp
      rw [hf]

theorem modeCheckPasses_iff {f : SpectrumFileData} :
    modeCheckPasses f = true ↔
      uniqueFirst (f.rows.map fun r => r.normModeUsed) =
        [headerMode f.firstLine] := by
  rw [modeCheckPasses]
  simp only [Bool.and_eq_true, beq_iff_eq, List.length_eq_one]
  constructor
  · rintro ⟨⟨a, ha⟩, hh⟩
    rw [ha] at hh ⊢
    simp only [List.headD_cons] at hh
    rw [hh]
  · intro h
    rw [h]
    exact ⟨⟨_, rfl⟩, by simp⟩

/-- Claim C4. A spectrum file passes the validator's mode-consistency check
iff its data rows are nonempty and unanimous on `norm_mode_used` and that
unanimous value equals the header-declared mode; the validator raises the
inconsistency error exactly when the check fails. -/
theorem c4_mode_unanimity (f : SpectrumFileData) :
    (modeCheckPasses f = true ↔
      f.rows ≠ [] ∧ ∀ r ∈ f.rows, r.normModeUsed = headerMode f.firstLine) ∧
    (validateFile f = Except.error "Inconsistent norm_mode_used" ↔
      modeCheckPasses f = false) := by
  constructor
  · rw [modeCheckPasses_iff, uniqueFirst_singleton]
    constructor
    · rintro ⟨hne, hall⟩
      refine ⟨fun h => hne (by rw [h]; rfl), ?_⟩
      intro r hr
      exact hall _ (List.mem_map_of_mem _ hr)
    · rintro ⟨hne, hall⟩
      refine ⟨by simpa using hne, ?_⟩
      intro x hx
      obtain ⟨r, hr, hrx⟩ := List.mem_map.mp hx
      rw [← hrx]
      exact hall r hr
  · rcases hb : modeCheckPasses f with _ | _
    · have hcond : ¬ ((uniqueFirst (f.rows.map fun r => r.normModeUsed)).length = 1 ∧
          (uniqueFirst (f.rows.map fun r => r.normModeUsed)).headD "" =
            headerMode f.firstLine) := by
        intro hcc
        have : modeCheckPasses f = true := by
          rw [modeCheckPasses]
          simp only [Bool.and_eq_true, beq_iff_eq]
          exact hcc
        rw [this] at hb
        exact Bool.noConfusion hb
      rw [validateFile, if_pos hcond]
      exact ⟨fun _ => rfl, fun _ => rfl⟩
    · have hcond : (uniqueFirst (f.rows.map fun r => r.normModeUsed)).length = 1 ∧
          (uniqueFirst (f.rows.map fun r => r.normModeUsed)).headD "" =
            headerMode f.firstLine := by
        have : modeCheckPasses f = true := hb
        rw [modeCheckPasses] at this
        simp only [Bool.and_eq_true, beq_iff_eq] at this
        exact this
      rw [validateFile, if_neg (not_not_intro hcond)]
      constructor
      · intro h
        split at h
        · injection h with h'
          exact absurd h' (by decide)
        · split at h
          · injection h with h'
            exact absurd h' (by decide)
          · exact Except.noConfusion h
      · intro h
        exact Bool.noConfusion h

/-- Witness for C4 at a concrete consistent file: its first line carries no
mode annotation, so the header mode is "UNKNOWN", and its single row is
unanimously "UNKNOWN" — the mode-consistency check passes. -/
theorem c4_mode_unanimity_witness :
    modeCheckPasses ⟨"hello", [⟨1, "UNKNOWN"⟩]⟩ = true :=
  (c4_mode_unanimity ⟨"hello", [⟨1, "UNKNOWN"⟩]⟩).1.mpr
    ⟨by decide, by decide⟩

/-- Claim C10 (implicit). If a spectrum file's first line does not contain
"Normalization mode used", the validator assigns header mode "UNKNOWN", so
the file passes the mode-consistency check iff every data row's
`norm_mode_used` is the single value "UNKNOWN" — and in that passing case
no reflectance range check applies ("UNKNOWN" matches neither the
CLOTH/BASELINE branch nor the ZSCORE branch), so validation succeeds
whatever the reflectance values are. -/
theorem c10_unknown_header (f : SpectrumFileData)
    (h : hasSubstring "Normalization mode used".data f.firstLine.data = false) :
    headerMode f.firstLine = "UNKNOWN" ∧
    (modeCheckPasses f = true ↔
      f.rows ≠ [] ∧ ∀ r ∈ f.rows, r.normModeUsed = "UNKNOWN") ∧
    (modeCheckPasses f = true → validateFile f = Except.ok ()) := by
  have hum : headerMode f.firstLine = "UNKNOWN" := by
    rw [headerMode, if_neg]
    rw [h]
    simp
  refine ⟨hum, ?_, ?_⟩
  · rw [modeCheckPasses_iff, uniqueFirst_singleton, hum]
    constructor
    · rintro ⟨hne, hall⟩
      exact ⟨fun hh => hne (by rw [hh]; rfl),
        fun r hr => hall _ (List.mem_map_of_mem _ hr)⟩
    · rintro ⟨hne, hall⟩
      refine ⟨by simpa using hne, fun x hx => ?_⟩
      obtain ⟨r, hr, hrx⟩ := List.mem_map.mp hx
      rw [← hrx]
      exact hall r hr
  · intro hp
    have hcond : (uniqueFirst (f.rows.map fun r => r.normModeUsed)).length = 1 ∧
        (uniqueFirst (f.rows.map fun r => r.normModeUsed)).headD "" =
          headerMode f.firstLine := by
      have hp' := hp
      rw [modeCheckPasses] at hp'
      simp only [Bool.and_eq_true, beq_iff_eq] at hp'
      exact hp'
    have hfm : fileMode f = "UNKNOWN" := by
      have hu := modeCheckPasses_iff.mp hp
      rw [hum] at hu
      rw [fileMode, hu]
      rfl
    have hno2 : ¬ ((fileMode f = "CLOTH" ∨ fileMode f = "BASELINE") ∧
        (f.rows.any fun r =>
          decide (r.reflNorm < 0) || decide (r.reflNorm > 2)) = true) := by
      rintro ⟨h1 | h1, -⟩ <;> rw [hfm] at h1 <;> exact absurd h1 (by decide)
    have hno3 : ¬ (fileMode f = "ZSCORE" ∧
        (f.rows.any fun r =>
          decide (r.reflNorm < 0) || decide (r.reflNorm > 1)) = true) := by
      rintro ⟨h1, -⟩
      rw [hfm] at h1
      exact absurd h1 (by decide)
    rw [validateFile, if_neg (not_not_intro hcond), if_neg hno2, if_neg hno3]

/-- Witness for C10: the file with first line "hello" and one row
`(refl_norm = 5, norm_mode_used = "UNKNOWN")` — reflectance 5 is outside
every range, yet validation succeeds because no range check applies. -/
theorem c10_unknown_header_witness :
    headerMode "hello" = "UNKNOWN" ∧
    validateFile ⟨"hello", [⟨5, "UNKNOWN"⟩]⟩ = Except.ok () :=
  ⟨(c10_unknown_header ⟨"hello", [⟨5, "UNKNOWN"⟩]⟩ (by decide)).1,
   (c10_unknown_header ⟨"hello", [⟨5, "UNKNOWN"⟩]⟩ (by decide)).2.2 (by decide)⟩

/-! ### Policy check (`self_check.py` `main`, lines 195-212) -/

/-- Number of produced files whose (unanimous) mode is `m`:
`norm_mode_counts[m]`, which counts one per *file*. -/
def modeFileCount (files : List SpectrumFileData) (m : String) : ℕ :=
  (files.filter fun f => fileMode f == m).length

/-- Number of data rows across all produced files carrying mode `m`. -/
def modeRowCount (files : List SpectrumFileData) (m : String) : ℕ :=
  (((files.map fun f => f.rows).flatten).filter
    fun r => r.normModeUsed == m).length

/-- The `errors` list accumulated by the policy block: CLOTH configured with
zero CLOTH files, and BASELINE configured with no persisted baseline file. -/
def policyErrors (cfg : String) (clothFiles : ℕ)
    (baselineFilesExist : Bool) : List String :=
  (if cfg = "CLOTH" ∧ clothFiles = 0 then
    ["NORM_MODE is CLOTH, but no spectra were processed using CLOTH normalization."]
  else []) ++
  (if cfg = "BASELINE" ∧ baselineFilesExist = false then
    ["NORM_MODE is BASELINE, but no baseline csv file was found."]
  else [])

/-- The `warnings` list of the policy block: AUTO configured and more than
25% of produced files fell back to ZSCORE. -/
def policyWarnings (cfg : String) (totalFiles zscoreFiles : ℕ) : List String :=
  if cfg = "AUTO" ∧ 0 < totalFiles ∧
      (zscoreFiles : ℚ) / (totalFiles : ℚ) > 1 / 4 then
    ["ZSCORE fallback used for more than a quarter of files. Check lighting conditions."]
  else []

/-- `if errors: raise SelfCheckError(...)`: the run fails iff the error list
is nonempty; warnings are only printed. -/
def policyFails (cfg : String) (clothFiles : ℕ)
    (baselineFilesExist : Bool) : Bool :=
  !(policyErrors cfg clothFiles baselineFilesExist).isEmpty

theorem passes_rows_eq_fileMode {f : SpectrumFileData}
    (h : modeCheckPasses f = true) :
    f.rows ≠ [] ∧ ∀ r ∈ f.rows, r.normModeUsed = fileMode f := by
  have hu := modeCheckPasses_iff.mp h
  have hsing := uniqueFirst_singleton.mp hu
  have hfm : fileMode f = headerMode f.firstLine := by
    rw [fileMode, hu]
    rfl
  refine ⟨fun hh => hsing.1 (by rw [hh]; rfl), ?_⟩
  intro r hr
  rw [hfm]
  exact hsing.2 _ (List.mem_map_of_mem _ hr)

theorem modeFileCount_zero_iff_rowCount_zero {files : List SpectrumFileData}
    {m : String} (hval : ∀ f ∈ files, modeCheckPasses f = true) :
    (modeFileCount files m = 0 ↔ modeRowCount files m = 0) := by
  rw [modeFileCount, modeRowCount, List.length_eq_zero, List.length_eq_zero,
    List.filter_eq_nil_iff, List.filter_eq_nil_iff]
  constructor
  · intro hno r hr
    obtain ⟨l, hl, hrl⟩ := List.mem_flatten.mp hr
    obtain ⟨f, hf, hfl⟩ := List.mem_map.mp hl
    have hrow := (passes_rows_eq_fileMode (hval f hf)).2 r (by rw [hfl]; exact hrl)
    intro hm
    apply hno f hf
    rw [beq_iff_eq] at hm ⊢
    rw [← hrow, hm]
  · intro hno f hf hm
    obtain ⟨hne, hall⟩ := passes_rows_eq_fileMode (hval f hf)
    obtain ⟨r, hr⟩ := List.exists_mem_of_ne_nil f.rows hne
    apply hno r
    · exact List.mem_flatten.mpr ⟨f.rows, List.mem_map_of_mem _ hf, hr⟩
    · rw [beq_iff_eq] at hm ⊢
      rw [hall r hr, hm]

/-- Claim C5. The policy stage fails exactly when CLOTH is configured but
zero rows used CLOTH, or BASELINE is configured but no persisted baseline
file exists; under AUTO the stage never fails, and when more than 25% of
produced files used ZSCORE it emits a warning (hypothesis: every produced
file passed the earlier per-file validation, which makes "zero CLOTH files"
and "zero CLOTH rows" coincide). -/
theorem c5_policy_check (cfg : String) (files : List SpectrumFileData)
    (baselineFilesExist : Bool)
    (hval : ∀ f ∈ files, modeCheckPasses f = true) :
    (policyFails cfg (modeFileCount files "CLOTH") baselineFilesExist = true ↔
      (cfg = "CLOTH" ∧ modeRowCount files "CLOTH" = 0) ∨
      (cfg = "BASELINE" ∧ baselineFilesExist = false)) ∧
    (cfg = "AUTO" →
      policyFails cfg (modeFileCount files "CLOTH") baselineFilesExist = false) ∧
    (cfg = "AUTO" → 0 < files.length →
      ((modeFileCount files "ZSCORE" : ℚ) / (files.length : ℚ) > 1 / 4) →
      policyWarnings cfg files.length (modeFileCount files "ZSCORE") ≠ []) := by
  refine ⟨?_, ?_, ?_⟩
  · rw [policyFails, policyErrors]
    rw [← modeFileCount_zero_iff_rowCount_zero hval]
    by_cases h1 : cfg = "CLOTH" ∧ modeFileCount files "CLOTH" = 0 <;>
      by_cases h2 : cfg = "BASELINE" ∧ baselineFilesExist = false <;>
        simp [h1, h2]
  · intro ha
    subst ha
    rw [policyFails, policyErrors]
    have h1 : ¬ ("AUTO" = "CLOTH" ∧ modeFileCount files "CLOTH" = 0) := by
      rintro ⟨h, -⟩
      exact absurd h (by decide)
    have h2 : ¬ ("AUTO" = "BASELINE" ∧ baselineFilesExist = false) := by
      rintro ⟨h, -⟩
      exact absurd h (by decide)
    rw [if_neg h1, if_neg h2]
    rfl
  · intro ha hpos hfrac
    rw [policyWarnings, if_pos ⟨ha, hpos, hfrac⟩]
    simp

/-- Witness for C5: one validated UNKNOWN-mode file, configured mode CLOTH —
zero rows used CLOTH, so the policy stage fails. -/
theorem c5_policy_check_witness :
    policyFails "CLOTH"
      (modeFileCount [⟨"hello", [⟨1, "UNKNOWN"⟩]⟩] "CLOTH") true = true :=
  (c5_policy_check "CLOTH" [⟨"hello", [⟨1, "UNKNOWN"⟩]⟩] true
    (by decide)).1.mpr (Or.inl ⟨rfl, by decide⟩)
